import Mathlib

/-!
Verification of the Ravelin numeric kernel: a shallow embedding of the
`VectorN`/`SharedVectorN` buffer-and-view machinery, the spatial-vector
(screw) dot product, and the spherical joint's axis kinematics, together
with theorems settling the specified properties.

`REAL` is modelled by `ℝ`.  A `boost::shared_array` allocation is modelled
by its contents (`ℕ → ℝ`) plus an allocation-identity counter `aid`, so that
"the underlying data array was replaced (reallocated)" is observable as a
change of `aid`.  Freshly allocated, uninitialized cells take their values
from an explicit `junk` parameter.
-/

namespace Ravelin

/-- The owning dense vector `VECTORN` (src/src/VectorN.cpp): a length, a
capacity, the allocation's contents, and an allocation identity. -/
structure VECTORN where
  len : Nat
  capacity : Nat
  data : Nat → ℝ
  aid : Nat

/-- A non-owning shared view over a vector's buffer
(`SHAREDVECTORN`, src/unnamed/part_003): start offset, length and stride.
The shared buffer itself is passed explicitly to the access operations. -/
structure SHAREDVECTORN where
  start : Nat
  len : Nat
  inc : Nat

namespace VECTORN

/-- `VECTORN::resize(N, preserve)` (VectorN.cpp lines 169-197).
If the length already equals `N`, nothing changes; if `N < _capacity` only the
stored length changes; otherwise a fresh array of `N` cells is allocated
(bumping `aid`), the first `_len` old elements are copied when `preserve`
holds, and length and capacity both become `N`. -/
def resize (junk : Nat → ℝ) (N : Nat) (preserve : Bool) (v : VECTORN) : VECTORN :=
  if v.len = N then v
  else if N < v.capacity then { v with len := N }
  else
    { len := N, capacity := N, aid := v.aid + 1,
      data := fun i =>
        if preserve then (if i < v.len then v.data i else junk i) else junk i }

/-- `VECTORN::compress()` (VectorN.cpp lines 145-162): when capacity already
equals length nothing happens; otherwise a fresh array of `_len` cells is
allocated, the `_len` elements are copied, and capacity becomes `_len`. -/
def compress (junk : Nat → ℝ) (v : VECTORN) : VECTORN :=
  if v.len = v.capacity then v
  else
    { len := v.len, capacity := v.len, aid := v.aid + 1,
      data := fun i => if i < v.len then v.data i else junk i }

/-- `VECTORN::segment(start_idx, end_idx)` (VectorN.cpp lines 310-324):
throws `InvalidIndexException` (modelled by `none`) when `start_idx > end_idx`
or `end_idx > _len`; otherwise returns a view sharing the vector's buffer with
`_start = start_idx`, `_len = end_idx - start_idx`, `_inc = 1`. -/
def segment (v : VECTORN) (start_idx end_idx : Nat) : Option SHAREDVECTORN :=
  if start_idx > end_idx ∨ end_idx > v.len then none
  else some { start := start_idx, len := end_idx - start_idx, inc := 1 }

end VECTORN

namespace SHAREDVECTORN

/-- The const `operator[]` of the shared vector view (src/unnamed/part_003
lines 10-17), verbatim: the bounds check is `i > _len` (not `i >= _len`), and
on success the element `_data[i + _start]` of the shared buffer is returned.
`none` models the thrown `InvalidIndexException`. -/
def elem (data : Nat → ℝ) (s : SHAREDVECTORN) (i : Nat) : Option ℝ :=
  if i > s.len then none else some (data (i + s.start))

/-- Modelled from the spec: the mutable element access of a shared vector view
(only the const overload is among the sources).  Per the aliasing law
"mutating the view mutates the buffer at that offset", writing element `i`
stores at offset `i + _start` of the shared buffer. -/
def write (data : Nat → ℝ) (s : SHAREDVECTORN) (i : Nat) (x : ℝ) : Nat → ℝ :=
  fun j => if j = i + s.start then x else data j

end SHAREDVECTORN

/-! Theorems about the buffer/view kernel. -/

/-- C3 counterexample: the claim that `resize` reallocates only when `N`
exceeds the capacity is false.  For a vector with length 1 and capacity 2,
`resize 2` hits the reallocation branch (the code's test is `N < _capacity`,
which fails at `N = capacity`), replacing the data array even though
`N ≤ capacity`. -/
theorem resize_reallocates_at_exact_capacity :
    (VECTORN.resize (fun _ => 0) 2 true ⟨1, 2, fun _ => 0, 0⟩).aid ≠
      (⟨1, 2, fun _ => 0, 0⟩ : VECTORN).aid ∧
    (2 : Nat) ≤ (⟨1, 2, fun _ => 0, 0⟩ : VECTORN).capacity ∧
    (⟨1, 2, fun _ => 0, 0⟩ : VECTORN).len ≤ (⟨1, 2, fun _ => 0, 0⟩ : VECTORN).capacity := by
  refine ⟨?_, by norm_num, by norm_num⟩
  simp [VECTORN.resize]

/-- C3 (amended): for a well-formed vector (`len ≤ capacity`), `resize(N)`
always ends with length `N`; when `N = len` or `N < capacity` the data array,
the capacity and the allocation are untouched (in particular for every shrink
and for growth strictly within capacity); and it replaces the data array
(reallocates, with capacity becoming `N`) exactly in the remaining case
`N ≠ len ∧ N ≥ capacity` — including the boundary case `N = capacity`. -/
theorem resize_realloc_policy (v : VECTORN) (junk : Nat → ℝ) (N : Nat) (preserve : Bool)
    (_hwf : v.len ≤ v.capacity) :
    (VECTORN.resize junk N preserve v).len = N ∧
    ((N = v.len ∨ N < v.capacity) →
      (VECTORN.resize junk N preserve v).aid = v.aid ∧
      (VECTORN.resize junk N preserve v).capacity = v.capacity ∧
      (VECTORN.resize junk N preserve v).data = v.data) ∧
    ((N ≠ v.len ∧ v.capacity ≤ N) →
      (VECTORN.resize junk N preserve v).aid = v.aid + 1 ∧
      (VECTORN.resize junk N preserve v).capacity = N) := by
  unfold VECTORN.resize
  by_cases h1 : v.len = N
  · subst h1
    simp
  · rw [if_neg h1]
    by_cases h2 : N < v.capacity
    · rw [if_pos h2]
      exact ⟨rfl, fun _ => ⟨rfl, rfl, rfl⟩, fun hc => absurd h2 (not_lt.mpr hc.2)⟩
    · rw [if_neg h2]
      refine ⟨rfl, fun hc => ?_, fun _ => ⟨rfl, rfl⟩⟩
      rcases hc with hc | hc
      · exact absurd hc.symm h1
      · exact absurd hc h2

/-- C3 amended-theorem witness: a concrete shrink (length 3, capacity 3,
resize to 1) keeps the allocation and capacity and sets the length. -/
theorem resize_realloc_policy_witness :
    (VECTORN.resize (fun _ => 0) 1 true ⟨3, 3, fun j => (j : ℝ), 5⟩).len = 1 ∧
    (VECTORN.resize (fun _ => 0) 1 true ⟨3, 3, fun j => (j : ℝ), 5⟩).aid = 5 ∧
    (VECTORN.resize (fun _ => 0) 1 true ⟨3, 3, fun j => (j : ℝ), 5⟩).capacity = 3 := by
  have h := resize_realloc_policy ⟨3, 3, fun j => (j : ℝ), 5⟩ (fun _ => 0) 1 true
    (by norm_num)
  exact ⟨h.1, (h.2.1 (Or.inr (by norm_num))).1, (h.2.1 (Or.inr (by norm_num))).2.1⟩

/-- C6: `resize(N, preserve := true)` keeps every element at an index below
`min old_len N`, whether it shrinks, grows within capacity, or grows beyond
capacity (in the reallocation branch the code copies the old `_len` elements,
and the reallocation branch implies `N ≥ capacity ≥ old_len`). -/
theorem resize_preserve_keeps_elements (v : VECTORN) (junk : Nat → ℝ) (N : Nat)
    (_hwf : v.len ≤ v.capacity) (i : Nat) (hi : i < min v.len N) :
    (VECTORN.resize junk N true v).data i = v.data i := by
  unfold VECTORN.resize
  by_cases h1 : v.len = N
  · simp [h1]
  · simp only [if_neg h1]
    by_cases h2 : N < v.capacity
    · simp [h2]
    · simp only [if_neg h2]
      have : i < v.len := lt_of_lt_of_le hi (min_le_left _ _)
      simp [this]

/-- C6 witness: growing a length-2, capacity-2 vector to 4 with preservation
keeps element 1. -/
theorem resize_preserve_keeps_elements_witness :
    (VECTORN.resize (fun _ => 7) 4 true ⟨2, 2, fun j => (j : ℝ), 0⟩).data 1 =
      (⟨2, 2, fun j => (j : ℝ), 0⟩ : VECTORN).data 1 :=
  resize_preserve_keeps_elements ⟨2, 2, fun j => (j : ℝ), 0⟩ (fun _ => 7) 4
    (by norm_num) 1 (by norm_num)

/-- C10: `compress` establishes `capacity = len`, keeps every element at an
index below the length, and is a no-op (same data array — indeed the very same
state — same length, same capacity) when capacity already equals length. -/
theorem compress_spec (v : VECTORN) (junk : Nat → ℝ) :
    (VECTORN.compress junk v).capacity = (VECTORN.compress junk v).len ∧
    (VECTORN.compress junk v).len = v.len ∧
    (∀ i, i < v.len → (VECTORN.compress junk v).data i = v.data i) ∧
    (v.capacity = v.len → VECTORN.compress junk v = v) := by
  unfold VECTORN.compress
  by_cases h : v.len = v.capacity
  · simp [h]
  · rw [if_neg h]
    exact ⟨rfl, rfl, fun i hi => by simp [hi], fun hc => absurd hc.symm h⟩

/-- C10 witness: compressing a length-1, capacity-3 vector yields capacity 1
and keeps element 0; compressing an exactly-full vector returns it unchanged. -/
theorem compress_spec_witness :
    (VECTORN.compress (fun _ => 0) ⟨1, 3, fun j => (j : ℝ), 0⟩).capacity =
      (VECTORN.compress (fun _ => 0) ⟨1, 3, fun j => (j : ℝ), 0⟩).len ∧
    (VECTORN.compress (fun _ => 0) ⟨1, 3, fun j => (j : ℝ), 0⟩).data 0 =
      (⟨1, 3, fun j => (j : ℝ), 0⟩ : VECTORN).data 0 ∧
    VECTORN.compress (fun _ => 0) ⟨2, 2, fun j => (j : ℝ), 4⟩ =
      ⟨2, 2, fun j => (j : ℝ), 4⟩ := by
  refine ⟨(compress_spec ⟨1, 3, fun j => (j : ℝ), 0⟩ (fun _ => 0)).1,
    (compress_spec ⟨1, 3, fun j => (j : ℝ), 0⟩ (fun _ => 0)).2.2.1 0 (by norm_num),
    (compress_spec ⟨2, 2, fun j => (j : ℝ), 4⟩ (fun _ => 0)).2.2.2 rfl⟩

/-- C2: evaluating the shared-view `operator[]` at the first out-of-bounds
index `i = len` shows the bounds check `i > _len` does not fire: for a view of
length 2 starting at offset 0, access at index 2 returns the buffer element at
offset 2 (one past the view) instead of failing with an index error. -/
theorem shared_elem_no_throw_at_len :
    SHAREDVECTORN.elem (fun j => (j : ℝ)) ⟨0, 2, 1⟩ 2 = some 2 ∧
    ¬ (2 : Nat) < (⟨0, 2, 1⟩ : SHAREDVECTORN).len := by
  constructor
  · simp [SHAREDVECTORN.elem]
  · norm_num

/-- C5: for `start ≤ end ≤ len`, `segment` succeeds with the view
`(start, end - start, stride 1)` sharing the vector's buffer; element `i` of
the view (for `i < end - start`) is the buffer element `start + i`; writing
element `i` through the view changes exactly the buffer element `start + i`;
and for `start > end` or `end > len`, `segment` fails with an index error. -/
theorem segment_spec (v : VECTORN) (s e : Nat) :
    (s ≤ e → e ≤ v.len →
      VECTORN.segment v s e = some ⟨s, e - s, 1⟩ ∧
      (∀ i, i < e - s →
        SHAREDVECTORN.elem v.data ⟨s, e - s, 1⟩ i = some (v.data (s + i))) ∧
      (∀ i x, i < e - s →
        SHAREDVECTORN.write v.data ⟨s, e - s, 1⟩ i x (s + i) = x ∧
        (∀ j, j ≠ s + i → SHAREDVECTORN.write v.data ⟨s, e - s, 1⟩ i x j = v.data j))) ∧
    (s > e ∨ e > v.len → VECTORN.segment v s e = none) := by
  constructor
  · intro hse hel
    refine ⟨by simp [VECTORN.segment, not_lt.mpr hse, not_lt.mpr hel], ?_, ?_⟩
    · intro i hi
      have : ¬ i > e - s := not_lt.mpr (le_of_lt hi)
      simp [SHAREDVECTORN.elem, this, Nat.add_comm i s]
    · intro i x _
      constructor
      · simp [SHAREDVECTORN.write, Nat.add_comm i s]
      · intro j hj
        have hj' : ¬ j = i + s := fun h => hj (by rw [h, Nat.add_comm])
        simp [SHAREDVECTORN.write, hj']
  · intro h
    simp only [VECTORN.segment, if_pos h]

/-- C5 witness: on the vector with buffer `j ↦ j` and length 3,
`segment 1 3` yields the view `(1, 2, 1)`; its element 0 reads buffer offset 1;
writing 5 through it at index 0 puts 5 at buffer offset 1; and `segment 2 1`
(start above end) fails. -/
theorem segment_spec_witness :
    VECTORN.segment ⟨3, 3, fun j => (j : ℝ), 0⟩ 1 3 = some ⟨1, 2, 1⟩ ∧
    SHAREDVECTORN.elem (⟨3, 3, fun j => (j : ℝ), 0⟩ : VECTORN).data ⟨1, 2, 1⟩ 0 =
      some ((⟨3, 3, fun j => (j : ℝ), 0⟩ : VECTORN).data (1 + 0)) ∧
    SHAREDVECTORN.write (⟨3, 3, fun j => (j : ℝ), 0⟩ : VECTORN).data ⟨1, 2, 1⟩ 0 5 (1 + 0) = 5 ∧
    VECTORN.segment ⟨3, 3, fun j => (j : ℝ), 0⟩ 2 1 = none := by
  have h := segment_spec ⟨3, 3, fun j => (j : ℝ), 0⟩ 1 3
  have h1 := h.1 (by norm_num) (by norm_num)
  exact ⟨by simpa using h1.1, h1.2.1 0 (by norm_num), (h1.2.2 0 5 (by norm_num)).1,
    (segment_spec ⟨3, 3, fun j => (j : ℝ), 0⟩ 2 1).2 (Or.inl (by norm_num))⟩

/-! Spatial-vector algebra: the Motion/Force (screw-theory) dot product. -/

/-- A 3-vector of reals (`VECTOR3` / `ORIGIN3` component data). -/
structure Vector3 where
  x : ℝ
  y : ℝ
  z : ℝ

namespace Vector3

/-- The zero 3-vector. -/
def zero : Vector3 := ⟨0, 0, 0⟩

/-- Componentwise sum of two 3-vectors. -/
def add (a b : Vector3) : Vector3 := ⟨a.x + b.x, a.y + b.y, a.z + b.z⟩

/-- Scalar multiple of a 3-vector (`VECTOR3 * REAL`). -/
def smul (c : ℝ) (v : Vector3) : Vector3 := ⟨c * v.x, c * v.y, c * v.z⟩

/-- Modelled from the spec: the 3-vector cross product (`VECTOR3::cross` /
`ORIGIN3::cross`, whose implementation file is not among the sources; the spec
uses the standard right-handed cross product throughout). -/
def cross (a b : Vector3) : Vector3 :=
  ⟨a.y * b.z - a.z * b.y, a.z * b.x - a.x * b.z, a.x * b.y - a.y * b.x⟩

/-- Modelled from the spec: the Euclidean norm of a 3-vector (`VECTOR3::norm`
is not among the sources; the spec's axes are "unit length" in the Euclidean
sense). -/
noncomputable def norm (v : Vector3) : ℝ :=
  Real.sqrt (v.x ^ 2 + v.y ^ 2 + v.z ^ 2)

/-- Modelled from the spec: normalization of a 3-vector
(`VECTOR3::normalize`, not among the sources): divide each component by the
Euclidean norm. -/
noncomputable def normalize (v : Vector3) : Vector3 :=
  ⟨v.x / v.norm, v.y / v.norm, v.z / v.norm⟩

end Vector3

/-- Modelled from the spec: the raw 6-entry storage of a spatial vector.  The
data model says a spatial vector is "(angular component, linear component,
frame)"; the angular part occupies entries 0-2 and the linear part entries 3-5
(the `SVector6` storage class is not among the sources). -/
def spatialData (ang lin : Vector3) : Nat → ℝ
  | 0 => ang.x
  | 1 => ang.y
  | 2 => ang.z
  | 3 => lin.x
  | 4 => lin.y
  | _ => lin.z

/-- `SAXIS::dot(const SFORCE&)` (second file in src/src/VectorN.cpp, lines
436-442), verbatim — note every operator joining the paired entries is `+`:
`d1[3]+d2[0] + d1[4]+d2[1] + d1[5]+d2[2] + d1[0]+d2[3] + d1[1]+d2[4] +
d1[2]+d2[5]`. -/
def saxisDotForce (d1 d2 : Nat → ℝ) : ℝ :=
  d1 3 + d2 0 + d1 4 + d2 1 + d1 5 + d2 2 +
  d1 0 + d2 3 + d1 1 + d2 4 + d1 2 + d2 5

/-- The screw-theory pairing the claim states: the sum of componentwise
products of the motion quantity's angular part with the force quantity's
linear part plus those of the motion linear part with the force angular
part. -/
def screwPairing (angm linm angf linf : Vector3) : ℝ :=
  angm.x * linf.x + angm.y * linf.y + angm.z * linf.z +
  linm.x * angf.x + linm.y * angf.y + linm.z * angf.z

/-- C1: evaluating `SAXIS::dot` at the motion vector with angular part
(1,0,0) and zero linear part against the zero force vector returns 1 — the
code sums all twelve entries instead of summing the six cross-term products —
while the screw-theory pairing of the claim gives 0 there. -/
theorem saxis_dot_sums_instead_of_multiplying :
    saxisDotForce (spatialData ⟨1, 0, 0⟩ Vector3.zero)
        (spatialData Vector3.zero Vector3.zero) = 1 ∧
    screwPairing ⟨1, 0, 0⟩ Vector3.zero Vector3.zero Vector3.zero = 0 := by
  constructor
  · norm_num [saxisDotForce, spatialData, Vector3.zero]
  · norm_num [screwPairing, Vector3.zero]

/-! The spherical joint (src/src/SphericalJoint.cpp).

`AANGLE(axis, angle)` builds a rotation matrix; its conversion code
(Matrix3/AAngle) is not among the sources, so a rotation is kept abstract as a
function `R : axis → angle → vector → vector` giving the action of the matrix
on a 3-vector; a matrix product `R1 * R2` applied to `v` is its composition
`R1 (R2 v)`. -/

/-- The three joint axes (`SPHERICALJOINT::Axis`; `DOF_1`..`DOF_3` alias
`eAxis1`..`eAxis3`). -/
inductive Axis where
  | eAxis1
  | eAxis2
  | eAxis3

/-- A `VECTOR3` together with its pose tag. -/
structure PVector3 where
  v : Vector3
  pose : Nat

/-- A 6-D spatial motion quantity (`SVELOCITY`): angular and linear parts. -/
structure SVELOCITY where
  ang : Vector3
  lin : Vector3

/-- The spherical-joint state read by the axis queries: the three configured
unit axes `_u`, the generalized coordinates `q[DOF_1..2]`, the tare offsets,
the generalized velocities `qd[DOF_1..2]`, and the cached spatial axis 1 and
its derivative as last written by `update_spatial_axes`. -/
structure SphericalState where
  u1 : Vector3
  u2 : Vector3
  u3 : Vector3
  q1 : ℝ
  q2 : ℝ
  t1 : ℝ
  t2 : ℝ
  qd1 : ℝ
  qd2 : ℝ
  s1 : SVELOCITY
  sdot1 : SVELOCITY

namespace SPHERICALJOINT

/-- The spatial axis 1 written by `SPHERICALJOINT::update_spatial_axes`
(SphericalJoint.cpp lines 114-115): angular part `_u[DOF_1]`, zero linear
part. -/
def updateSpatialAxesS1 (u1 : Vector3) : SVELOCITY := ⟨u1, Vector3.zero⟩

/-- The spatial-axis derivative 1 written by
`SPHERICALJOINT::update_spatial_axes` (SphericalJoint.cpp lines 118-119):
zero angular and linear parts. -/
def updateSpatialAxesSdot1 : SVELOCITY := ⟨Vector3.zero, Vector3.zero⟩

/-- `SPHERICALJOINT::get_axis` (SphericalJoint.cpp lines 48-79): axis 1
returns `_u[DOF_1]` itself; axis 2 returns `(0, cos(q1+tare1), sin(q1+tare1))`
and axis 3 returns `(sin(q2+tare2), -cos(q2+tare2)*sin(q1+tare1),
cos(q1+tare1)*cos(q2+tare2))`, both tagged with `_u[DOF_1]`'s pose. -/
noncomputable def get_axis (u1 _u2 _u3 : PVector3) (q1 q2 t1 t2 : ℝ) :
    Axis → PVector3
  | .eAxis1 => u1
  | .eAxis2 => ⟨⟨0, Real.cos (q1 + t1), Real.sin (q1 + t1)⟩, u1.pose⟩
  | .eAxis3 =>
      ⟨⟨Real.sin (q2 + t2), -Real.cos (q2 + t2) * Real.sin (q1 + t1),
        Real.cos (q1 + t1) * Real.cos (q2 + t2)⟩, u1.pose⟩

/-- `SPHERICALJOINT::assign_axes` (SphericalJoint.cpp lines 131-198).  An axis
counts as unset when its norm is below `eps` (`EPS`).  `dob` abstracts
`VECTOR3::determine_orthonormal_basis` (whose implementation is not among the
sources): from one given unit axis it produces the two remaining axes, in the
argument order of the call site.  Returns the completion flag and the three
resulting axes. -/
noncomputable def assign_axes (eps : ℝ) (dob : Vector3 → Vector3 × Vector3)
    (u1 u2 u3 : Vector3) : Bool × Vector3 × Vector3 × Vector3 :=
  if u1.norm < eps then
    if u2.norm < eps then
      if u3.norm < eps then (false, u1, u2, u3)
      else
        let u3n := u3.normalize
        let p := dob u3n
        (true, p.1, p.2, u3n)
    else
      if u3.norm < eps then
        let u2n := u2.normalize
        let p := dob u2n
        (true, p.2, u2n, p.1)
      else
        let u2n := u2.normalize
        let u3n := u3.normalize
        (true, Vector3.cross u2n u3n, u2n, u3n)
  else
    if u2.norm < eps then
      if u3.norm < eps then
        let u1n := u1.normalize
        let p := dob u1n
        (true, u1n, p.1, p.2)
      else
        let u1n := u1.normalize
        let u3n := u3.normalize
        (true, u1n, Vector3.cross u3n u1n, u3n)
    else
      if u3.norm < eps then
        let u1n := u1.normalize
        let u2n := u2.normalize
        (true, u1n, u2n, Vector3.cross u1n u2n)
      else (true, u1, u2, u3)

/-- `SPHERICALJOINT::get_spatial_axes` (SphericalJoint.cpp lines 204-237):
after checking the inboard and outboard poses, axis 2 is `R1 * _u[eAxis2]` and
axis 3 is `R1 * (R2 * _u[eAxis3])` with `R1 = AANGLE(_u[eAxis1],
q1+tare1)` and `R2 = AANGLE(_u[eAxis2], q2+tare2)`, each with zero linear
part; entry 1 is the cached `_s[DOF_1]`. -/
noncomputable def get_spatial_axes (R : Vector3 → ℝ → Vector3 → Vector3)
    (inboard outboard : Option Nat) (st : SphericalState) :
    Except String (SVELOCITY × SVELOCITY × SVELOCITY) :=
  if inboard.isNone then
    Except.error "SPHERICALJOINT::get_spatial_axes() called with NULL inboard pose"
  else if outboard.isNone then
    Except.error "SPHERICALJOINT::get_spatial_axes() called with NULL outboard pose"
  else
    let u2 := R st.u1 (st.q1 + st.t1) st.u2
    let u3 := R st.u1 (st.q1 + st.t1) (R st.u2 (st.q2 + st.t2) st.u3)
    Except.ok (st.s1, ⟨u2, Vector3.zero⟩, ⟨u3, Vector3.zero⟩)

/-- `SPHERICALJOINT::get_spatial_axes_dot` (SphericalJoint.cpp lines 243-289):
after checking the inboard and outboard poses, entry 2 is
`cross(omega1, R1 * _u[DOF_2])` with `omega1 = _u[DOF_1] * qd1`, and entry 3
is `cross(omega1, R1 * R2 * _u[DOF_3]) + R1 * cross(omega2, R2 * _u[DOF_3])`
with `omega2 = _u[DOF_2] * qd2`, each with zero linear part; entry 1 is the
cached `_s_dot[DOF_1]`. -/
noncomputable def get_spatial_axes_dot (R : Vector3 → ℝ → Vector3 → Vector3)
    (inboard outboard : Option Nat) (st : SphericalState) :
    Except String (SVELOCITY × SVELOCITY × SVELOCITY) :=
  if inboard.isNone then
    Except.error "SPHERICALJOINT::get_spatial_axes_dot() called with NULL inboard pose"
  else if outboard.isNone then
    Except.error "SPHERICALJOINT::get_spatial_axes_dot() called with NULL outboard pose"
  else
    let omega1 := Vector3.smul st.qd1 st.u1
    let du2 := Vector3.cross omega1 (R st.u1 (st.q1 + st.t1) st.u2)
    let omega2 := Vector3.smul st.qd2 st.u2
    let du3 := Vector3.add
      (Vector3.cross omega1 (R st.u1 (st.q1 + st.t1) (R st.u2 (st.q2 + st.t2) st.u3)))
      (R st.u1 (st.q1 + st.t1) (Vector3.cross omega2 (R st.u2 (st.q2 + st.t2) st.u3)))
    Except.ok (st.sdot1, ⟨du2, Vector3.zero⟩, ⟨du3, Vector3.zero⟩)

end SPHERICALJOINT

/-! Theorems about the spherical joint. -/

/-- C9: `get_axis` ignores the stored axis-2 and axis-3 directions entirely:
for every stored axis triad and coordinates, axis 2 is the fixed vector
`(0, cos(q1+tare1), sin(q1+tare1))` and axis 3 is `(sin(q2+tare2),
-cos(q2+tare2)*sin(q1+tare1), cos(q1+tare1)*cos(q2+tare2))`, both tagged with
axis 1's pose — the canonical x/y/z triad formulas, not rotations of the
configured base axes. -/
theorem get_axis_uses_canonical_triad (u1 u2 u3 u2' u3' : PVector3)
    (q1 q2 t1 t2 : ℝ) :
    SPHERICALJOINT.get_axis u1 u2 u3 q1 q2 t1 t2 Axis.eAxis2 =
      ⟨⟨0, Real.cos (q1 + t1), Real.sin (q1 + t1)⟩, u1.pose⟩ ∧
    SPHERICALJOINT.get_axis u1 u2 u3 q1 q2 t1 t2 Axis.eAxis3 =
      ⟨⟨Real.sin (q2 + t2), -Real.cos (q2 + t2) * Real.sin (q1 + t1),
        Real.cos (q1 + t1) * Real.cos (q2 + t2)⟩, u1.pose⟩ ∧
    SPHERICALJOINT.get_axis u1 u2 u3 q1 q2 t1 t2 Axis.eAxis2 =
      SPHERICALJOINT.get_axis u1 u2' u3' q1 q2 t1 t2 Axis.eAxis2 ∧
    SPHERICALJOINT.get_axis u1 u2 u3 q1 q2 t1 t2 Axis.eAxis3 =
      SPHERICALJOINT.get_axis u1 u2' u3' q1 q2 t1 t2 Axis.eAxis3 :=
  ⟨rfl, rfl, rfl, rfl⟩

/-- C8: each spatial-axis query (`get_spatial_axes` and
`get_spatial_axes_dot`) fails with the configuration error exactly when the
inboard pose or the outboard pose is null; with both poses attached neither
raises it (both return axes). -/
theorem spatial_axes_queries_require_poses (R : Vector3 → ℝ → Vector3 → Vector3)
    (inboard outboard : Option Nat) (st : SphericalState) :
    ((∃ e, SPHERICALJOINT.get_spatial_axes R inboard outboard st =
        Except.error e) ↔ (inboard = none ∨ outboard = none)) ∧
    ((∃ e, SPHERICALJOINT.get_spatial_axes_dot R inboard outboard st =
        Except.error e) ↔ (inboard = none ∨ outboard = none)) := by
  cases inboard <;> cases outboard <;>
    simp [SPHERICALJOINT.get_spatial_axes, SPHERICALJOINT.get_spatial_axes_dot]

/-- C8 witness: with a null inboard pose the query fails, and with both poses
attached it does not. -/
theorem spatial_axes_queries_require_poses_witness :
    (∃ e, SPHERICALJOINT.get_spatial_axes (fun _ _ v => v) none (some 0)
      ⟨⟨1, 0, 0⟩, ⟨0, 1, 0⟩, ⟨0, 0, 1⟩, 0, 0, 0, 0, 0, 0,
        ⟨Vector3.zero, Vector3.zero⟩, ⟨Vector3.zero, Vector3.zero⟩⟩ =
        Except.error e) ∧
    ¬ (∃ e, SPHERICALJOINT.get_spatial_axes_dot (fun _ _ v => v) (some 0) (some 1)
      ⟨⟨1, 0, 0⟩, ⟨0, 1, 0⟩, ⟨0, 0, 1⟩, 0, 0, 0, 0, 0, 0,
        ⟨Vector3.zero, Vector3.zero⟩, ⟨Vector3.zero, Vector3.zero⟩⟩ =
        Except.error e) := by
  constructor
  · exact (spatial_axes_queries_require_poses (fun _ _ v => v) none (some 0)
      ⟨⟨1, 0, 0⟩, ⟨0, 1, 0⟩, ⟨0, 0, 1⟩, 0, 0, 0, 0, 0, 0,
        ⟨Vector3.zero, Vector3.zero⟩, ⟨Vector3.zero, Vector3.zero⟩⟩).1.mpr
      (Or.inl rfl)
  · intro h
    rcases (spatial_axes_queries_require_poses (fun _ _ v => v) (some 0) (some 1)
      ⟨⟨1, 0, 0⟩, ⟨0, 1, 0⟩, ⟨0, 0, 1⟩, 0, 0, 0, 0, 0, 0,
        ⟨Vector3.zero, Vector3.zero⟩, ⟨Vector3.zero, Vector3.zero⟩⟩).2.mp h with
      hc | hc <;> exact Option.noConfusion hc

/-- The claim's ω1: axis 1 scaled by the first generalized velocity. -/
def specOmega1 (st : SphericalState) : Vector3 := Vector3.smul st.qd1 st.u1

/-- The claim's ω2: the base axis 2 scaled by the second generalized
velocity. -/
def specOmega2 (st : SphericalState) : Vector3 := Vector3.smul st.qd2 st.u2

/-- The claim's derivative of spatial axis 2: `ω1 × (R1·axis2_base)`, with
`R1` the axis-angle rotation about axis 1 by `q1+tare1`. -/
def specAxis2Dot (R : Vector3 → ℝ → Vector3 → Vector3)
    (st : SphericalState) : Vector3 :=
  Vector3.cross (specOmega1 st) (R st.u1 (st.q1 + st.t1) st.u2)

/-- The claim's derivative of spatial axis 3:
`ω1 × (R1·R2·axis3_base) + R1·(ω2 × (R2·axis3_base))`, with `R2` the rotation
about base axis 2 by `q2+tare2`. -/
def specAxis3Dot (R : Vector3 → ℝ → Vector3 → Vector3)
    (st : SphericalState) : Vector3 :=
  Vector3.add
    (Vector3.cross (specOmega1 st)
      (R st.u1 (st.q1 + st.t1) (R st.u2 (st.q2 + st.t2) st.u3)))
    (R st.u1 (st.q1 + st.t1)
      (Vector3.cross (specOmega2 st) (R st.u2 (st.q2 + st.t2) st.u3)))

/-- C4: with both poses attached and the axis-1 derivative as established by
`update_spatial_axes`, `get_spatial_axes_dot` returns the zero spatial vector
for axis 1 and, for axes 2 and 3, exactly the claim's formulas
`ω1 × (R1·axis2_base)` and `ω1 × (R1·R2·axis3_base) + R1·(ω2 ×
(R2·axis3_base))` as angular parts with zero linear parts. -/
theorem spatial_axes_dot_matches_formulas (R : Vector3 → ℝ → Vector3 → Vector3)
    (inboard outboard : Option Nat) (st : SphericalState)
    (hsd : st.sdot1 = SPHERICALJOINT.updateSpatialAxesSdot1)
    (hin : inboard ≠ none) (hout : outboard ≠ none) :
    SPHERICALJOINT.get_spatial_axes_dot R inboard outboard st =
      Except.ok (⟨Vector3.zero, Vector3.zero⟩,
        ⟨specAxis2Dot R st, Vector3.zero⟩,
        ⟨specAxis3Dot R st, Vector3.zero⟩) := by
  cases inboard with
  | none => exact absurd rfl hin
  | some i =>
    cases outboard with
    | none => exact absurd rfl hout
    | some o =>
      simp [SPHERICALJOINT.get_spatial_axes_dot, hsd,
        SPHERICALJOINT.updateSpatialAxesSdot1, specAxis2Dot, specAxis3Dot,
        specOmega1, specOmega2]

/-- C4 witness: a concrete state (identity rotation action, unit `u1`, poses
attached) instantiates the derivative theorem. -/
theorem spatial_axes_dot_matches_formulas_witness :
    SPHERICALJOINT.get_spatial_axes_dot (fun _ _ v => v) (some 0) (some 1)
      ⟨⟨1, 0, 0⟩, ⟨0, 1, 0⟩, ⟨0, 0, 1⟩, 0, 0, 0, 0, 1, 1,
        SPHERICALJOINT.updateSpatialAxesS1 ⟨1, 0, 0⟩,
        SPHERICALJOINT.updateSpatialAxesSdot1⟩ =
      Except.ok (⟨Vector3.zero, Vector3.zero⟩,
        ⟨specAxis2Dot (fun _ _ v => v)
          ⟨⟨1, 0, 0⟩, ⟨0, 1, 0⟩, ⟨0, 0, 1⟩, 0, 0, 0, 0, 1, 1,
            SPHERICALJOINT.updateSpatialAxesS1 ⟨1, 0, 0⟩,
            SPHERICALJOINT.updateSpatialAxesSdot1⟩, Vector3.zero⟩,
        ⟨specAxis3Dot (fun _ _ v => v)
          ⟨⟨1, 0, 0⟩, ⟨0, 1, 0⟩, ⟨0, 0, 1⟩, 0, 0, 0, 0, 1, 1,
            SPHERICALJOINT.updateSpatialAxesS1 ⟨1, 0, 0⟩,
            SPHERICALJOINT.updateSpatialAxesSdot1⟩, Vector3.zero⟩) :=
  spatial_axes_dot_matches_formulas (fun _ _ v => v) (some 0) (some 1)
    ⟨⟨1, 0, 0⟩, ⟨0, 1, 0⟩, ⟨0, 0, 1⟩, 0, 0, 0, 0, 1, 1,
      SPHERICALJOINT.updateSpatialAxesS1 ⟨1, 0, 0⟩,
      SPHERICALJOINT.updateSpatialAxesSdot1⟩
    rfl (by simp) (by simp)

/-- C7: when exactly two of the three axes are set (norm at least `EPS`),
`assign_axes` reports success and fills the remaining axis with the cross
product of the two known normalized axes in the right-handed cyclic order
(axis1×axis2→axis3, axis2×axis3→axis1, axis3×axis1→axis2); when none is set
it reports failure and leaves all three axes untouched. -/
theorem assign_axes_two_known_cyclic (eps : ℝ)
    (dob : Vector3 → Vector3 × Vector3) (u1 u2 u3 : Vector3) :
    (¬ u1.norm < eps → ¬ u2.norm < eps → u3.norm < eps →
      SPHERICALJOINT.assign_axes eps dob u1 u2 u3 =
        (true, u1.normalize, u2.normalize,
          Vector3.cross u1.normalize u2.normalize)) ∧
    (u1.norm < eps → ¬ u2.norm < eps → ¬ u3.norm < eps →
      SPHERICALJOINT.assign_axes eps dob u1 u2 u3 =
        (true, Vector3.cross u2.normalize u3.normalize,
          u2.normalize, u3.normalize)) ∧
    (¬ u1.norm < eps → u2.norm < eps → ¬ u3.norm < eps →
      SPHERICALJOINT.assign_axes eps dob u1 u2 u3 =
        (true, u1.normalize, Vector3.cross u3.normalize u1.normalize,
          u3.normalize)) ∧
    (u1.norm < eps → u2.norm < eps → u3.norm < eps →
      SPHERICALJOINT.assign_axes eps dob u1 u2 u3 = (false, u1, u2, u3)) := by
  refine ⟨fun h1 h2 h3 => ?_, fun h1 h2 h3 => ?_, fun h1 h2 h3 => ?_,
    fun h1 h2 h3 => ?_⟩ <;>
    simp [SPHERICALJOINT.assign_axes, h1, h2, h3]

/-- C7 witness: with `EPS = 1/2`, axes 1 and 2 given as the unit x and y
vectors and axis 3 unset, `assign_axes` succeeds and completes the triad with
their cross product. -/
theorem assign_axes_two_known_cyclic_witness :
    SPHERICALJOINT.assign_axes (1 / 2) (fun _ => (Vector3.zero, Vector3.zero))
        ⟨1, 0, 0⟩ ⟨0, 1, 0⟩ Vector3.zero =
      (true, Vector3.normalize ⟨1, 0, 0⟩, Vector3.normalize ⟨0, 1, 0⟩,
        Vector3.cross (Vector3.normalize ⟨1, 0, 0⟩)
          (Vector3.normalize ⟨0, 1, 0⟩)) := by
  have hx : Vector3.norm ⟨1, 0, 0⟩ = 1 := by
    simp [Vector3.norm]
  have hy : Vector3.norm ⟨0, 1, 0⟩ = 1 := by
    simp [Vector3.norm]
  have hz : Vector3.norm Vector3.zero = 0 := by
    simp [Vector3.norm, Vector3.zero]
  exact (assign_axes_two_known_cyclic (1 / 2)
      (fun _ => (Vector3.zero, Vector3.zero)) ⟨1, 0, 0⟩ ⟨0, 1, 0⟩
      Vector3.zero).1
    (by rw [hx]; norm_num) (by rw [hy]; norm_num) (by rw [hz]; norm_num)

end Ravelin
